import Mathlib

/-!
Verification development for the i3status-rust "radeontop" status segment.

The development shallowly embeds the two source files of the repository:

* `src/formatting/value.rs` — the `Unit` / `Suffix` / `Value` measurement-value
  model and the SI-scaled float renderer `format_number`;
* `src/blocks/radeontop.rs` — the `Radeontop` block: the parsed data dump
  (`RadeontopDataDump`, `Ram`, `Clock` with their serde defaults) and the
  accessor `Block::update`.

Real numbers (Rust `f64`) are modelled by `ℚ`; the idealisation is exact for
the rational inputs used here.  Where the Rust code hits non-finite float
values (`log10` of a non-positive number) the embedding reproduces the IEEE
behaviour explicitly: `log10` of a negative number is NaN and `NaN as i32`
is `0`; `log10 0` is `-inf` and `-inf as i32` saturates to `i32::MIN`;
`f64::max(NaN, 1.0)` is `1.0`.  Overflow of `i64` arithmetic is not modelled
(the claims under study are not about overflow).
-/

namespace I3StatusRust

/-! ## `src/formatting/value.rs` -/

/-- The `Unit` enum of `value.rs`. -/
inductive Unit where
  | BitsPerSecond
  | BytesPerSecond
  | Percents
  | Degrees
  | Seconds
  | Watts
  | Hertz
  | Bytes
  | None
  | Other (s : String)
deriving DecidableEq

/-- Rust `Unit::from_string`: the `match` on the token string, falling back to `Other`. -/
def Unit.from_string (s : String) : Unit :=
  if s = "Bi/s" then .BitsPerSecond
  else if s = "B/s" then .BytesPerSecond
  else if s = "%" then .Percents
  else if s = "°" then .Degrees
  else if s = "s" then .Seconds
  else if s = "W" then .Watts
  else if s = "Hz" then .Hertz
  else if s = "B" then .Bytes
  else if s = "" then .None
  else .Other s

/-- Rust `Unit::to_string`. -/
def Unit.to_string : Unit → String
  | .BitsPerSecond => "Bi/s"
  | .BytesPerSecond => "B/s"
  | .Percents => "%"
  | .Degrees => "°"
  | .Seconds => "s"
  | .Watts => "W"
  | .Hertz => "Hz"
  | .Bytes => "B"
  | .None => ""
  | .Other u => u

/-- The `Suffix` enum of `value.rs`: SI decimal scale steps. -/
inductive Suffix where
  | Nano
  | Micro
  | Milli
  | One
  | Kilo
  | Mega
  | Giga
  | Tera
deriving DecidableEq

/-- The payload of `ConfigurationError(String, String)` from `errors.rs`
(only its two message strings matter to the embedded code). -/
structure ConfigurationError where
  title : String
  cause : String
deriving DecidableEq

/-- Rust `Suffix::from_string`: `Ok` on the eight canonical tokens, a
`ConfigurationError` on anything else.  The apostrophes of the Rust error
message are written `\x27`. -/
def Suffix.from_string (s : String) : Except ConfigurationError Suffix :=
  if s = "n" then .ok .Nano
  else if s = "u" then .ok .Micro
  else if s = "m" then .ok .Milli
  else if s = "1" then .ok .One
  else if s = "K" then .ok .Kilo
  else if s = "M" then .ok .Mega
  else if s = "G" then .ok .Giga
  else if s = "T" then .ok .Tera
  else .error ⟨"Can not parse suffix", "unknown suffix: \x27" ++ s ++ "\x27"⟩

/-- Rust `Suffix::to_string` (empty for `One`). -/
def Suffix.to_string : Suffix → String
  | .Nano => "n"
  | .Micro => "u"
  | .Milli => "m"
  | .One => ""
  | .Kilo => "K"
  | .Mega => "M"
  | .Giga => "G"
  | .Tera => "T"

/-- The `min_exp_level` match at the top of `format_number`. -/
def minExpLevel : Suffix → ℤ
  | .Tera => 4
  | .Giga => 3
  | .Mega => 2
  | .Kilo => 1
  | .One => 0
  | .Milli => -1
  | .Micro => -2
  | .Nano => -3

/-- Rust `raw_value.log10().div_euclid(3.) as i32`.

For `v > 0` this is `⌊log10 v / 3⌋ = ⌊log_1000 v⌋ = Int.log 1000 v`
(`div_euclid` by a positive divisor rounds toward negative infinity).
For `v = 0`, `log10` is `-inf`, which stays `-inf` through `div_euclid`
and saturates to `i32::MIN = -2147483648` in the `as i32` cast.
For `v < 0`, `log10` is NaN, NaN stays NaN through `div_euclid`, and
`NaN as i32` is `0`. -/
def log10DivEuclid3AsI32 (v : ℚ) : ℤ :=
  if 0 < v then Int.log 1000 v
  else if v = 0 then -2147483648
  else 0

/-- Rust `i32::clamp(self, min, max)`: `if self < min { min } else if self > max { max } else { self }`. -/
def i32clamp (x lo hi : ℤ) : ℤ :=
  if x < lo then lo
  else if hi < x then hi
  else x

/-- The `exp_level` computed by `format_number`. -/
def expLevel (v : ℚ) (min_suffix : Suffix) : ℤ :=
  i32clamp (log10DivEuclid3AsI32 v) (minExpLevel min_suffix) 4

/-- The rescaled value of `format_number`: `raw_value / 10f64.powi(exp_level * 3)`. -/
def scaledValue (v : ℚ) (min_suffix : Suffix) : ℚ :=
  v / (10 : ℚ) ^ (expLevel v min_suffix * 3)

/-- The `suffix` match of `format_number` (`_ => Nano` catches everything below `-2`). -/
def suffixFor (e : ℤ) : Suffix :=
  if e = 4 then .Tera
  else if e = 3 then .Giga
  else if e = 2 then .Mega
  else if e = 1 then .Kilo
  else if e = 0 then .One
  else if e = -1 then .Milli
  else if e = -2 then .Micro
  else .Nano

/-- Rust `(value.log10().floor() + 1.0).max(1.0) as isize`.

For `value > 0` this is `max (⌊log10 value⌋ + 1) 1`.  For `value = 0`,
`log10` is `-inf` and `f64::max(-inf, 1.0) = 1.0`; for `value < 0`,
`log10` is NaN and `f64::max(NaN, 1.0) = 1.0` (Rust's `max` ignores NaN),
so both give `1`. -/
def digitsOf (value : ℚ) : ℤ :=
  if 0 < value then max (Int.log 10 value + 1) 1 else 1

/-- Round to the nearest integer, ties to even — the rounding Rust's float
`Display`/precision formatting applies to the exact decimal value. -/
def roundHalfEven (q : ℚ) : ℤ :=
  if Int.fract q < 1/2 then ⌊q⌋
  else if 1/2 < Int.fract q then ⌊q⌋ + 1
  else if ⌊q⌋ % 2 = 0 then ⌊q⌋ else ⌊q⌋ + 1

/-- Left-pad a string with zeros up to width `w`. -/
def zeroPadLeft (s : String) (w : ℕ) : String :=
  String.mk (List.replicate (w - s.length) '0') ++ s

/-- Rust `format!` of an f64 with fixed precision `prec` (`{:.prec$}`):
sign, then the magnitude rounded (half to even) to `prec` fractional
digits; with `prec = 0` no decimal point is printed. -/
def fmtPrec (v : ℚ) (prec : ℕ) : String :=
  let sign := if v < 0 then "-" else ""
  let n : ℕ := (roundHalfEven (|v| * (10 : ℚ) ^ prec)).toNat
  if prec = 0 then sign ++ Nat.repr n
  else sign ++ Nat.repr (n / 10 ^ prec) ++ "." ++ zeroPadLeft (Nat.repr (n % 10 ^ prec)) prec

/-- Rust `format_number` from `value.rs`: choose the SI exponent, rescale, then
spend the remaining width budget on the fractional part.  Note that in the
one-character-left branch the literal dot is printed after the suffix
token, exactly as in `format!` with the `"{:.0}{}."` template. -/
def format_number (raw_value : ℚ) (min_width : ℕ) (min_suffix : Suffix) : String :=
  let exp_level := expLevel raw_value min_suffix
  let value := scaledValue raw_value min_suffix
  let suffix := suffixFor exp_level
  let digits := digitsOf value
  let rest : ℤ := (min_width : ℤ) - digits
  if rest ≤ 0 then fmtPrec value 0 ++ suffix.to_string
  else if rest = 1 then fmtPrec value 0 ++ suffix.to_string ++ "."
  else fmtPrec value (rest - 1).toNat ++ suffix.to_string

/-- The `InternalValue` enum of `value.rs`. -/
inductive InternalValue where
  | Text (s : String)
  | Integer (n : ℤ)
  | Float (q : ℚ)

/-- The `Value` struct of `value.rs`. -/
structure Value where
  unit : Unit
  min_width : ℕ
  icon : Option String
  value : InternalValue

/-- Modelled from the spec: the external `Variable` collaborator
("DisplayPreferences") — optional overrides `min_width`, `pad_with`,
`unit` and `min_suffix`, exactly the four fields `Value::format` reads. -/
structure Variable where
  min_width : Option ℕ
  pad_with : Option Char
  unit : Option Unit
  min_suffix : Option Suffix

/-- Rust `Value::from_string`. -/
def Value.from_string (text : String) : Value :=
  ⟨Unit.None, 0, Option.none, .Text text⟩

/-- Rust `Value::from_integer`. -/
def Value.from_integer (value : ℤ) : Value :=
  ⟨Unit.None, 2, Option.none, .Integer value⟩

/-- Rust `Value::from_float`. -/
def Value.from_float (value : ℚ) : Value :=
  ⟨Unit.None, 3, Option.none, .Float value⟩

/-- Rust `Value::icon`. -/
def Value.set_icon (self : Value) (icon : String) : Value :=
  { self with icon := some icon }

/-- Rust `Value::degrees`. -/
def Value.degrees (self : Value) : Value :=
  { self with unit := Unit.Degrees }

/-- Rust `Value::percents`. -/
def Value.percents (self : Value) : Value :=
  { self with unit := Unit.Percents }

/-- Rust `Value::bits_per_second`. -/
def Value.bits_per_second (self : Value) : Value :=
  { self with unit := Unit.BitsPerSecond }

/-- Rust `Value::bytes_per_second`. -/
def Value.bytes_per_second (self : Value) : Value :=
  { self with unit := Unit.BytesPerSecond }

/-- Rust `Value::seconds`. -/
def Value.seconds (self : Value) : Value :=
  { self with unit := Unit.Seconds }

/-- Rust `Value::watts`. -/
def Value.watts (self : Value) : Value :=
  { self with unit := Unit.Watts }

/-- Rust `Value::hertz`. -/
def Value.hertz (self : Value) : Value :=
  { self with unit := Unit.Hertz }

/-- Rust `Value::bytes`. -/
def Value.bytes (self : Value) : Value :=
  { self with unit := Unit.Bytes }

/-- A run of `n` copies of the fill character, as pushed by the padding loops. -/
def padChars (c : Char) (n : ℕ) : String :=
  String.mk (List.replicate n c)

/-- Rust `Value::format`.  Text is right-padded, integers are left-padded after
the bit/byte conversion, floats go through the conversion and then
`format_number`; the optional icon is prefixed verbatim and the effective
unit label appended.  (String length is modelled as character count; the
texts produced by the block are ASCII.) -/
def Value.format (self : Value) (var : Variable) : String :=
  let min_width := var.min_width.getD self.min_width
  let pad_with := var.pad_with.getD ' '
  let unit := var.unit.getD self.unit
  let value :=
    match self.value with
    | .Text text =>
        text ++ padChars pad_with (min_width - text.length)
    | .Integer value =>
        let value : ℤ :=
          if self.unit = Unit.BytesPerSecond ∧ unit = Unit.BitsPerSecond then value * 8
          else if self.unit = Unit.BitsPerSecond ∧ unit = Unit.BytesPerSecond then Int.tdiv value 8
          else value
        let text := Int.repr value
        padChars pad_with (min_width - text.length) ++ text
    | .Float value =>
        let value : ℚ :=
          if self.unit = Unit.BytesPerSecond ∧ unit = Unit.BitsPerSecond then value * 8
          else if self.unit = Unit.BitsPerSecond ∧ unit = Unit.BytesPerSecond then value / 8
          else value
        format_number value min_width (var.min_suffix.getD Suffix.Nano)
  match self.icon with
  | some icon => icon ++ value ++ unit.to_string
  | .none => value ++ unit.to_string

/-! ## `src/blocks/radeontop.rs` -/

/-- The `Ram` struct (VRAM / GTT sub-record): used percentage (`used_per`
on the wire), used bytes (`used_b`), max bytes (`max_b`). -/
structure Ram where
  used_percentage : ℚ
  used_bytes : ℕ
  max_bytes : ℕ
deriving DecidableEq

/-- Rust `impl Default for Ram`: all zero. -/
def Ram.default : Ram := ⟨0, 0, 0⟩

/-- The `Clock` struct (memory / shader clock sub-record). -/
structure Clock where
  used_percentage : ℚ
  used_hz : ℚ
  max_hz : ℚ
deriving DecidableEq

/-- Rust `impl Default for Clock`: all zero. -/
def Clock.default : Clock := ⟨0, 0, 0⟩

/-- The `RadeontopDataDump` struct: one parsed line of the radeontop JSON
feed.  Fields `tc`, `smx`, `cr` and the four sub-records carry serde
`default` attributes; all other fields are required. -/
structure RadeontopDataDump where
  timestamp : ℚ
  bus : ℕ
  gpu : ℚ
  ee : ℚ
  vgt : ℚ
  ta : ℚ
  tc : ℚ
  sx : ℚ
  sh : ℚ
  spi : ℚ
  smx : ℚ
  sc : ℚ
  pa : ℚ
  db : ℚ
  cb : ℚ
  cr : ℚ
  vram : Ram
  gtt : Ram
  mclk : Clock
  sclk : Clock
deriving DecidableEq

/-- A JSON value, as far as the wire format of the dump needs: numbers,
strings, objects (a list of key/value fields), null. -/
inductive Json where
  | jnum (q : ℚ)
  | jstr (s : String)
  | jobj (fields : List (String × Json))
  | jnull

/-- serde: deserialize an `f64` field — any JSON number. -/
def Json.asRat : Json → Option ℚ
  | .jnum q => some q
  | _ => Option.none

/-- serde: deserialize a `usize` field — a non-negative integral JSON number. -/
def Json.asUsize : Json → Option ℕ
  | .jnum q => if q.den = 1 ∧ 0 ≤ q.num then some q.num.toNat else Option.none
  | _ => Option.none

/-- serde for `Ram` (no `deny_unknown_fields` on the sub-records): all three
fields required, extra keys ignored. -/
def Ram.deserialize : Json → Option Ram
  | .jobj fields => do
      let used_percentage ← (List.lookup "used_per" fields).bind Json.asRat
      let used_bytes ← (List.lookup "used_b" fields).bind Json.asUsize
      let max_bytes ← (List.lookup "max_b" fields).bind Json.asUsize
      some ⟨used_percentage, used_bytes, max_bytes⟩
  | _ => Option.none

/-- serde for `Clock`: all three fields required, extra keys ignored. -/
def Clock.deserialize : Json → Option Clock
  | .jobj fields => do
      let used_percentage ← (List.lookup "used_per" fields).bind Json.asRat
      let used_hz ← (List.lookup "used_hz" fields).bind Json.asRat
      let max_hz ← (List.lookup "max_hz" fields).bind Json.asRat
      some ⟨used_percentage, used_hz, max_hz⟩
  | _ => Option.none

/-- The key set of `RadeontopDataDump` (it is `deny_unknown_fields`). -/
def dataDumpKeys : List String :=
  ["timestamp", "bus", "gpu", "ee", "vgt", "ta", "tc", "sx", "sh", "spi",
   "smx", "sc", "pa", "db", "cb", "cr", "vram", "gtt", "mclk", "sclk"]

/-- Look up a required `f64` field. -/
def reqRat (fields : List (String × Json)) (k : String) : Option ℚ :=
  (List.lookup k fields).bind Json.asRat

/-- Look up an optional field with a serde `default`: absent means the
default, present means it must deserialize. -/
def optField {α : Type} (d : α) (des : Json → Option α) (fields : List (String × Json)) (k : String) : Option α :=
  match List.lookup k fields with
  | .none => some d
  | .some j => des j

/-- Look up a required `usize` field. -/
def reqUsize (fields : List (String × Json)) (k : String) : Option ℕ :=
  (List.lookup k fields).bind Json.asUsize

/-- serde for `RadeontopDataDump` (`deny_unknown_fields`): the line's JSON
object, given as its field list.  Required fields must be present with the
right type; `tc`, `smx`, `cr` default to `0` and the four sub-records to
their all-zero `Default` values when absent; any unknown key is an error.
Deserialization succeeds exactly when every field extractor succeeds, and
then the record collects the extracted (or defaulted) values. -/
def RadeontopDataDump.deserialize (fields : List (String × Json)) : Option RadeontopDataDump :=
  if (fields.all fun kv => dataDumpKeys.contains kv.1)
      && (reqRat fields "timestamp").isSome
      && (reqUsize fields "bus").isSome
      && (reqRat fields "gpu").isSome
      && (reqRat fields "ee").isSome
      && (reqRat fields "vgt").isSome
      && (reqRat fields "ta").isSome
      && (optField 0 Json.asRat fields "tc").isSome
      && (reqRat fields "sx").isSome
      && (reqRat fields "sh").isSome
      && (reqRat fields "spi").isSome
      && (optField 0 Json.asRat fields "smx").isSome
      && (reqRat fields "sc").isSome
      && (reqRat fields "pa").isSome
      && (reqRat fields "db").isSome
      && (reqRat fields "cb").isSome
      && (optField 0 Json.asRat fields "cr").isSome
      && (optField Ram.default Ram.deserialize fields "vram").isSome
      && (optField Ram.default Ram.deserialize fields "gtt").isSome
      && (optField Clock.default Clock.deserialize fields "mclk").isSome
      && (optField Clock.default Clock.deserialize fields "sclk").isSome
  then
    some
      { timestamp := (reqRat fields "timestamp").getD 0
        bus := (reqUsize fields "bus").getD 0
        gpu := (reqRat fields "gpu").getD 0
        ee := (reqRat fields "ee").getD 0
        vgt := (reqRat fields "vgt").getD 0
        ta := (reqRat fields "ta").getD 0
        tc := (optField 0 Json.asRat fields "tc").getD 0
        sx := (reqRat fields "sx").getD 0
        sh := (reqRat fields "sh").getD 0
        spi := (reqRat fields "spi").getD 0
        smx := (optField 0 Json.asRat fields "smx").getD 0
        sc := (reqRat fields "sc").getD 0
        pa := (reqRat fields "pa").getD 0
        db := (reqRat fields "db").getD 0
        cb := (reqRat fields "cb").getD 0
        cr := (optField 0 Json.asRat fields "cr").getD 0
        vram := (optField Ram.default Ram.deserialize fields "vram").getD Ram.default
        gtt := (optField Ram.default Ram.deserialize fields "gtt").getD Ram.default
        mclk := (optField Clock.default Clock.deserialize fields "mclk").getD Clock.default
        sclk := (optField Clock.default Clock.deserialize fields "sclk").getD Clock.default }
  else Option.none

/-- Modelled from the spec: the severity enum of the external widget
collaborator, `{Idle, Info, Warning, Critical}`. -/
inductive State where
  | Idle
  | Info
  | Warning
  | Critical
deriving DecidableEq

/-- Modelled from the spec: the scheduler's completion mode returned by an
accessor — `Once` is one-shot completion (no further self-scheduled tick),
`Every` a periodic self-scheduled tick. -/
inductive Update where
  | Once
  | Every (seconds : ℕ)
deriving DecidableEq

/-- Modelled from the spec: the external `TextWidget` collaborator, holding
the rendered string and the severity it was handed. -/
structure TextWidget where
  text : String
  state : State
deriving DecidableEq

/-- Rust `TextWidget::set_text`. -/
def TextWidget.set_text (self : TextWidget) (t : String) : TextWidget :=
  { self with text := t }

/-- Rust `TextWidget::set_state`. -/
def TextWidget.set_state (self : TextWidget) (s : State) : TextWidget :=
  { self with state := s }

/-- The `Radeontop` block state read by `update`: the six threshold cutoffs,
the format template (modelled by its render behaviour, a function from the
named-value map to a rendered string or an error), the text widget, and the
`SharedLatestSlot` contents as seen by the accessor at lock time. -/
structure Radeontop where
  id : ℕ
  gpu_info : ℕ
  gpu_warning : ℕ
  gpu_critical : ℕ
  vram_info : ℕ
  vram_warning : ℕ
  vram_critical : ℕ
  format : List (String × Value) → Except String String
  text : TextWidget
  last_update : Option RadeontopDataDump

/-- Rust `f64::round`: nearest integer, ties away from zero. -/
def roundHalfAway (q : ℚ) : ℤ :=
  if 0 ≤ q then ⌊q + 1/2⌋ else -⌊-q + 1/2⌋

/-- Rust `(x * 100f64).round() as usize`: round half away from zero, then the
saturating float-to-usize cast (negatives clamp to zero). -/
def pctRound (q : ℚ) : ℕ :=
  (roundHalfAway (q * 100)).toNat

/-- Rust `format!` with the `"{:02x}"` template: lowercase hex, zero-padded to
width two. -/
def hexFmt02 (n : ℕ) : String :=
  zeroPadLeft (String.mk (Nat.toDigits 16 n)) 2

/-- The named-value map built by `Block::update` (the `map!` literal),
as an association list in source order. -/
def Radeontop.buildValues (last_update : RadeontopDataDump) : List (String × Value) :=
  [("bus", Value.from_string (hexFmt02 last_update.bus)),
   ("gpu", (Value.from_float (last_update.gpu * 100)).percents),
   ("ee", (Value.from_float (last_update.ee * 100)).percents),
   ("vgt", (Value.from_float (last_update.vgt * 100)).percents),
   ("ta", (Value.from_float (last_update.ta * 100)).percents),
   ("tc", (Value.from_float (last_update.tc * 100)).percents),
   ("sx", (Value.from_float (last_update.sx * 100)).percents),
   ("sh", (Value.from_float (last_update.sh * 100)).percents),
   ("spi", (Value.from_float (last_update.spi * 100)).percents),
   ("smx", (Value.from_float (last_update.smx * 100)).percents),
   ("sc", (Value.from_float (last_update.sc * 100)).percents),
   ("pa", (Value.from_float (last_update.pa * 100)).percents),
   ("db", (Value.from_float (last_update.db * 100)).percents),
   ("cb", (Value.from_float (last_update.cb * 100)).percents),
   ("cr", (Value.from_float (last_update.cr * 100)).percents),
   ("vram_used_percentage", (Value.from_float (last_update.vram.used_percentage * 100)).percents),
   ("vram_used_bytes", (Value.from_integer (last_update.vram.used_bytes : ℤ)).bytes),
   ("vram_max_bytes", (Value.from_integer (last_update.vram.max_bytes : ℤ)).bytes),
   ("gtt_used_percentage", (Value.from_float (last_update.gtt.used_percentage * 100)).percents),
   ("gtt_used_bytes", (Value.from_integer (last_update.gtt.used_bytes : ℤ)).bytes),
   ("gtt_max_bytes", (Value.from_integer (last_update.gtt.max_bytes : ℤ)).bytes),
   ("mclk_used_percentage", (Value.from_float (last_update.mclk.used_percentage * 100)).percents),
   ("mclk_used_hz", (Value.from_float last_update.mclk.used_hz).hertz),
   ("mclk_max_hz", (Value.from_float last_update.mclk.max_hz).hertz),
   ("sclk_used_percentage", (Value.from_float (last_update.sclk.used_percentage * 100)).percents),
   ("sclk_used_hz", (Value.from_float last_update.sclk.used_hz).hertz),
   ("sclk_max_hz", (Value.from_float last_update.sclk.max_hz).hertz)]

/-- Rust `Block::update` for `Radeontop`.  The `&mut self` mutation is modelled
by returning the new block state next to the `Result`: if the slot is
empty nothing happens and `Ok(Some(Update::Once))` is returned; otherwise
the widget severity is set from the two strict threshold ladders, the
template is rendered (an error propagates via `?` after the severity was
already set), the widget text is set, and `Ok(Some(Update::Once))` is
returned. -/
def Radeontop.update (self : Radeontop) : Radeontop × Except String (Option Update) :=
  match self.last_update with
  | .none => (self, Except.ok (some Update.Once))
  | some last_update =>
      let vram_usage := pctRound last_update.vram.used_percentage
      let gpu_usage := pctRound last_update.gpu
      let level : ℕ :=
        max
          (if self.vram_critical < vram_usage then 3
           else if self.vram_warning < vram_usage then 2
           else if self.vram_info < vram_usage then 1
           else 0)
          (if self.gpu_critical < gpu_usage then 3
           else if self.gpu_warning < gpu_usage then 2
           else if self.gpu_info < gpu_usage then 1
           else 0)
      let st :=
        if level = 3 then State.Critical
        else if level = 2 then State.Warning
        else if level = 1 then State.Info
        else State.Idle
      let new_text := self.text.set_state st
      match self.format (Radeontop.buildValues last_update) with
      | Except.error e => ({ self with text := new_text }, Except.error e)
      | Except.ok rendered =>
          ({ self with text := new_text.set_text rendered }, Except.ok (some Update.Once))

/-! ## Claims about the `Unit` and `Suffix` string codecs -/

/-- The nine canonical unit tokens of `Unit::from_string` / `Unit::to_string`. -/
def unitTokens : List String :=
  ["Bi/s", "B/s", "%", "°", "s", "W", "Hz", "B", ""]

/-- C5: for every named `Unit` variant (every variant other than `Other`),
`Unit::from_string (Unit::to_string u) = u`; and every string that is not a
canonical token parses to `Other` carrying it verbatim, whose `to_string`
returns it unchanged. -/
theorem C5_unit_string_roundtrip :
    (∀ u : Unit, (∀ t : String, u ≠ Unit.Other t) →
      Unit.from_string (Unit.to_string u) = u) ∧
    (∀ s : String, s ∉ unitTokens →
      Unit.from_string s = Unit.Other s ∧ Unit.to_string (Unit.Other s) = s) := by
  constructor
  · intro u hu
    cases u
    case Other t => exact absurd rfl (hu t)
    all_goals rfl
  · intro s hs
    simp only [unitTokens, List.mem_cons, List.not_mem_nil, or_false, not_or] at hs
    obtain ⟨h1, h2, h3, h4, h5, h6, h7, h8, h9⟩ := hs
    exact ⟨by simp [Unit.from_string, h1, h2, h3, h4, h5, h6, h7, h8, h9], rfl⟩

/-- Witness for C5 at the named variant `Percents` and the non-token `"xyz"`. -/
theorem C5_unit_string_roundtrip_witness :
    Unit.from_string (Unit.to_string Unit.Percents) = Unit.Percents ∧
    Unit.from_string "xyz" = Unit.Other "xyz" ∧
    Unit.to_string (Unit.Other "xyz") = "xyz" :=
  ⟨C5_unit_string_roundtrip.1 Unit.Percents (fun t h => Unit.noConfusion h),
   (C5_unit_string_roundtrip.2 "xyz" (by decide)).1,
   (C5_unit_string_roundtrip.2 "xyz" (by decide)).2⟩

/-- The eight canonical suffix tokens and the suffixes they parse to. -/
def suffixTokenTable : List (String × Suffix) :=
  [("n", .Nano), ("u", .Micro), ("m", .Milli), ("1", .One),
   ("K", .Kilo), ("M", .Mega), ("G", .Giga), ("T", .Tera)]

/-- C6: `Suffix::from_string` returns `Ok` with the matching suffix exactly
on the eight canonical tokens and a `ConfigurationError` on every other
string — never a silently defaulted suffix. -/
theorem C6_suffix_parse_exact_tokens (s : String) :
    Suffix.from_string s =
      match List.lookup s suffixTokenTable with
      | some suf => Except.ok suf
      | .none => Except.error
          ⟨"Can not parse suffix", "unknown suffix: \x27" ++ s ++ "\x27"⟩ := by
  by_cases h1 : s = "n"
  · subst h1; rfl
  by_cases h2 : s = "u"
  · subst h2; rfl
  by_cases h3 : s = "m"
  · subst h3; rfl
  by_cases h4 : s = "1"
  · subst h4; rfl
  by_cases h5 : s = "K"
  · subst h5; rfl
  by_cases h6 : s = "M"
  · subst h6; rfl
  by_cases h7 : s = "G"
  · subst h7; rfl
  by_cases h8 : s = "T"
  · subst h8; rfl
  have b1 : (s == "n") = false := beq_eq_false_iff_ne.mpr h1
  have b2 : (s == "u") = false := beq_eq_false_iff_ne.mpr h2
  have b3 : (s == "m") = false := beq_eq_false_iff_ne.mpr h3
  have b4 : (s == "1") = false := beq_eq_false_iff_ne.mpr h4
  have b5 : (s == "K") = false := beq_eq_false_iff_ne.mpr h5
  have b6 : (s == "M") = false := beq_eq_false_iff_ne.mpr h6
  have b7 : (s == "G") = false := beq_eq_false_iff_ne.mpr h7
  have b8 : (s == "T") = false := beq_eq_false_iff_ne.mpr h8
  simp [Suffix.from_string, suffixTokenTable, List.lookup,
    h1, h2, h3, h4, h5, h6, h7, h8, b1, b2, b3, b4, b5, b6, b7, b8]

/-- C9 (implicit): the `Suffix` string round-trip succeeds and is the
identity on the seven suffixes other than `One`, while for `One` the
emitted token is the empty string and `Suffix::from_string` rejects `""`
with a configuration error (it expects `"1"`). -/
theorem C9_suffix_roundtrip_fails_only_for_one :
    Suffix.from_string (Suffix.to_string .Nano) = Except.ok .Nano ∧
    Suffix.from_string (Suffix.to_string .Micro) = Except.ok .Micro ∧
    Suffix.from_string (Suffix.to_string .Milli) = Except.ok .Milli ∧
    Suffix.from_string (Suffix.to_string .Kilo) = Except.ok .Kilo ∧
    Suffix.from_string (Suffix.to_string .Mega) = Except.ok .Mega ∧
    Suffix.from_string (Suffix.to_string .Giga) = Except.ok .Giga ∧
    Suffix.from_string (Suffix.to_string .Tera) = Except.ok .Tera ∧
    Suffix.to_string .One = "" ∧
    Suffix.from_string (Suffix.to_string .One) =
      Except.error ⟨"Can not parse suffix", "unknown suffix: \x27\x27"⟩ :=
  ⟨rfl, rfl, rfl, rfl, rfl, rfl, rfl, rfl, rfl⟩

/-! ## Claims about the accessor `Block::update` -/

/-- C8: invoked while the shared slot is empty, the accessor leaves the
whole block — in particular the widget's text and state — unchanged and
returns `Ok(Some(Update::Once))`, requesting no further self-scheduled
tick. -/
theorem C8_empty_slot_is_noop_once (self : Radeontop)
    (h : self.last_update = Option.none) :
    Radeontop.update self = (self, Except.ok (some Update.Once)) := by
  unfold Radeontop.update
  rw [h]

/-- A concrete block whose slot is empty, for the C8 witness. -/
def emptySlotBlock : Radeontop :=
  { id := 1, gpu_info := 30, gpu_warning := 60, gpu_critical := 90,
    vram_info := 30, vram_warning := 60, vram_critical := 90,
    format := fun _ => Except.ok "rendered",
    text := { text := "prior", state := State.Idle },
    last_update := Option.none }

/-- Witness for C8 at a concrete block with an empty slot. -/
theorem C8_empty_slot_is_noop_once_witness :
    Radeontop.update emptySlotBlock = (emptySlotBlock, Except.ok (some Update.Once)) :=
  C8_empty_slot_is_noop_once emptySlotBlock rfl

/-- C10 (implicit): whatever the slot state, the accessor's result is
`Ok(Some(Update::Once))` unless the template collaborator returned an
error on the built value map, in which case exactly that error propagates;
a periodic self-scheduled tick is never requested. -/
theorem C10_update_once_unless_render_error (self : Radeontop) :
    (Radeontop.update self).2 = Except.ok (some Update.Once) ∨
    (∃ lu e, self.last_update = some lu ∧
      self.format (Radeontop.buildValues lu) = Except.error e ∧
      (Radeontop.update self).2 = Except.error e) := by
  cases h : self.last_update with
  | none => exact Or.inl (by simp [Radeontop.update, h])
  | some lu =>
      cases hf : self.format (Radeontop.buildValues lu) with
      | error e => exact Or.inr ⟨lu, e, rfl, hf, by simp [Radeontop.update, h, hf]⟩
      | ok rendered => exact Or.inl (by simp [Radeontop.update, h, hf])

/-- The tier classification asserted by the C1 claim: a value at or above a
cutoff lands in the higher tier. -/
def tierAtOrAbove (info warning critical x : ℕ) : ℕ :=
  if critical ≤ x then 3
  else if warning ≤ x then 2
  else if info ≤ x then 1
  else 0

/-- The tier classification the accessor actually computes: the `match`
guards are strict (`x if x > cutoff`), so a value exactly equal to a cutoff
lands in the lower tier. -/
def tierStrict (info warning critical x : ℕ) : ℕ :=
  if critical < x then 3
  else if warning < x then 2
  else if info < x then 1
  else 0

/-- The severity-to-state mapping of the accessor's outer `match`
(`3 => Critical, 2 => Warning, 1 => Info, 0 => Idle`). -/
def stateOfLevel (level : ℕ) : State :=
  if level = 3 then State.Critical
  else if level = 2 then State.Warning
  else if level = 1 then State.Info
  else State.Idle

/-- A dump whose VRAM usage rounds to exactly the default critical cutoff 90
(used fraction 9/10 scaled by 100) and whose GPU usage rounds to 10. -/
def boundaryDump : RadeontopDataDump :=
  { timestamp := 1, bus := 0, gpu := 1/10, ee := 0, vgt := 0, ta := 0, tc := 0,
    sx := 0, sh := 0, spi := 0, smx := 0, sc := 0, pa := 0, db := 0, cb := 0, cr := 0,
    vram := { used_percentage := 9/10, used_bytes := 0, max_bytes := 0 },
    gtt := Ram.default, mclk := Clock.default, sclk := Clock.default }

/-- A block with the default threshold ladders 30/60/90 holding
`boundaryDump` in its slot. -/
def boundaryBlock : Radeontop :=
  { id := 0, gpu_info := 30, gpu_warning := 60, gpu_critical := 90,
    vram_info := 30, vram_warning := 60, vram_critical := 90,
    format := fun _ => Except.ok "out",
    text := { text := "", state := State.Idle },
    last_update := some boundaryDump }

theorem pctRound_nine_tenths : pctRound ((9 : ℚ)/10) = 90 := by
  unfold pctRound roundHalfAway
  rw [if_pos (by norm_num : (0 : ℚ) ≤ 9/10 * 100)]
  have h : (⌊(9 : ℚ)/10 * 100 + 1/2⌋ : ℤ) = 90 := by
    rw [Int.floor_eq_iff]; norm_num
  rw [h]
  rfl

theorem pctRound_one_tenth : pctRound ((1 : ℚ)/10) = 10 := by
  unfold pctRound roundHalfAway
  rw [if_pos (by norm_num : (0 : ℚ) ≤ 1/10 * 100)]
  have h : (⌊(1 : ℚ)/10 * 100 + 1/2⌋ : ℤ) = 10 := by
    rw [Int.floor_eq_iff]; norm_num
  rw [h]
  rfl

/-- C1 counterexample: with ascending ladders 30/60/90 and a VRAM usage
rounding to exactly the critical cutoff 90, the claim's at-or-above ladder
yields tier 3 (Critical), but the accessor sets the widget severity to
`Warning` — a value exactly equal to a cutoff lands in the lower tier, not
the higher one. -/
theorem C1_boundary_counterexample :
    pctRound ((9 : ℚ)/10) = 90 ∧
    tierAtOrAbove 30 60 90 (pctRound ((9 : ℚ)/10)) = 3 ∧
    ((Radeontop.update boundaryBlock).1).text.state = State.Warning := by
  refine ⟨pctRound_nine_tenths, ?_, ?_⟩
  · rw [pctRound_nine_tenths]
    decide
  · simp only [Radeontop.update, boundaryBlock, boundaryDump, pctRound_nine_tenths,
      pctRound_one_tenth, TextWidget.set_state, TextWidget.set_text]
    norm_num

/-- C1 (amended): after an accessor call on a non-empty slot, the widget's
severity equals the maximum of the two ladder tiers computed on the rounded
percentage values (the field times 100, rounded half away from zero, cast
saturating to `usize`), where each tier is 0 at or below the info cutoff,
1 strictly above info and at or below warning, 2 strictly above warning and
at or below critical, and 3 strictly above critical: a value exactly equal
to a cutoff lands in the lower tier. -/
theorem C1_severity_is_max_of_strict_tiers (self : Radeontop) (lu : RadeontopDataDump)
    (h : self.last_update = some lu) :
    ((Radeontop.update self).1).text.state =
      stateOfLevel (max
        (tierStrict self.vram_info self.vram_warning self.vram_critical
          (pctRound lu.vram.used_percentage))
        (tierStrict self.gpu_info self.gpu_warning self.gpu_critical
          (pctRound lu.gpu))) := by
  cases hf : self.format (Radeontop.buildValues lu) <;>
    simp [Radeontop.update, h, hf, tierStrict, stateOfLevel,
      TextWidget.set_state, TextWidget.set_text]

/-- Witness for C1 (amended) at the concrete boundary block: VRAM tier 2,
GPU tier 0, severity Warning. -/
theorem C1_severity_is_max_of_strict_tiers_witness :
    ((Radeontop.update boundaryBlock).1).text.state =
      stateOfLevel (max
        (tierStrict 30 60 90 (pctRound ((9 : ℚ)/10)))
        (tierStrict 30 60 90 (pctRound ((1 : ℚ)/10)))) :=
  C1_severity_is_max_of_strict_tiers boundaryBlock boundaryDump rfl

/-! ## Claims about `format_number` -/

/-- The exponent selection asserted by the C2 claim, computed from the
absolute value: `clamp(floor(log10 |v| / 3), exp(s_min), 4)`; at `v = 0`
the floor of `log10 0 = -inf` clamps up to the floor suffix's exponent. -/
def expLevelFromAbs (v : ℚ) (min_suffix : Suffix) : ℤ :=
  if v = 0 then minExpLevel min_suffix
  else i32clamp (Int.log 1000 |v|) (minExpLevel min_suffix) 4

/-- C2 counterexample: at the negative payload `-5000000` with floor suffix
nano, the claim's `|v|`-based formula selects exponent 2 (mega), but the
code takes `log10` of the negative value itself — NaN, cast to `0` — and
selects exponent 0 (suffix `One`), so the exponent is not computed from the
absolute value. -/
theorem C2_negative_payload_counterexample :
    expLevelFromAbs (-5000000) Suffix.Nano = 2 ∧
    expLevel (-5000000) Suffix.Nano = 0 ∧
    suffixFor (expLevelFromAbs (-5000000) Suffix.Nano) = Suffix.Mega ∧
    suffixFor (expLevel (-5000000) Suffix.Nano) = Suffix.One := by
  have habs : |(-5000000 : ℚ)| = ((5000000 : ℕ) : ℚ) := by norm_num
  have hnat : Nat.log 1000 5000000 = 2 :=
    Nat.log_eq_of_pow_le_of_lt_pow (by norm_num) (by norm_num)
  have h1 : expLevelFromAbs (-5000000) Suffix.Nano = 2 := by
    unfold expLevelFromAbs
    rw [if_neg (by norm_num), habs, Int.log_natCast, hnat]
    decide
  have h2 : expLevel (-5000000) Suffix.Nano = 0 := by
    unfold expLevel log10DivEuclid3AsI32
    rw [if_neg (by norm_num : ¬(0 : ℚ) < -5000000),
      if_neg (by norm_num : ¬(-5000000 : ℚ) = 0)]
    decide
  exact ⟨h1, h2, by rw [h1]; decide, by rw [h2]; decide⟩

/-- C2 (amended): `format_number` selects its exponent from the signed
value itself, not its absolute value: for `v > 0` it is
`clamp(floor(log_1000 v), exp(s_min), 4)`; for `v = 0` the `-inf`
logarithm saturates low and clamps to `exp(s_min)`; for `v < 0` the
logarithm is NaN, the cast yields `0`, and the exponent is
`clamp(0, exp(s_min), 4)`.  The value is rescaled by `1000^exp_level`,
and the exponent-to-suffix table is 4→tera … 0→one … −3→nano. -/
theorem C2_expLevel_signed_and_rescale (v : ℚ) (ms : Suffix) :
    expLevel v ms =
      (if 0 < v then max (minExpLevel ms) (min (Int.log 1000 v) 4)
       else if v = 0 then minExpLevel ms
       else max (minExpLevel ms) (min 0 4)) ∧
    scaledValue v ms = v / (1000 : ℚ) ^ expLevel v ms ∧
    suffixFor 4 = Suffix.Tera ∧ suffixFor 3 = Suffix.Giga ∧
    suffixFor 2 = Suffix.Mega ∧ suffixFor 1 = Suffix.Kilo ∧
    suffixFor 0 = Suffix.One ∧ suffixFor (-1) = Suffix.Milli ∧
    suffixFor (-2) = Suffix.Micro ∧ suffixFor (-3) = Suffix.Nano := by
  have hb : -3 ≤ minExpLevel ms ∧ minExpLevel ms ≤ 4 := by
    cases ms <;> exact ⟨by decide, by decide⟩
  refine ⟨?_, ?_, by decide, by decide, by decide, by decide, by decide,
    by decide, by decide, by decide⟩
  · obtain ⟨hb1, hb2⟩ := hb
    unfold expLevel log10DivEuclid3AsI32 i32clamp
    simp only [max_def, min_def]
    split_ifs <;> omega
  · unfold scaledValue
    have hp : (10 : ℚ) ^ (expLevel v ms * 3) = (1000 : ℚ) ^ expLevel v ms := by
      rw [mul_comm, zpow_mul]
      norm_num
    rw [hp]

/-- The digit count asserted by the C3 claim: the number of integer-part
digits of the absolute rescaled value, with a minimum of one. -/
def digitsOfAbs (x : ℚ) : ℤ :=
  max (Int.log 10 |x| + 1) 1

theorem roundHalfEven_intCast (z : ℤ) : roundHalfEven ((z : ℚ)) = z := by
  unfold roundHalfEven
  rw [Int.fract_intCast, if_pos (by norm_num : (0 : ℚ) < 1/2)]
  exact Int.floor_intCast z

theorem expLevel_neg123 : expLevel (-123 : ℚ) Suffix.One = 0 := by
  unfold expLevel log10DivEuclid3AsI32
  rw [if_neg (by norm_num : ¬(0 : ℚ) < -123), if_neg (by norm_num : ¬(-123 : ℚ) = 0)]
  decide

theorem scaledValue_neg123 : scaledValue (-123 : ℚ) Suffix.One = -123 := by
  unfold scaledValue
  rw [expLevel_neg123]
  norm_num

theorem fmtPrec_neg123 : fmtPrec (-123 : ℚ) 1 = "-123.0" := by
  have hq : |(-123 : ℚ)| * (10 : ℚ) ^ (1 : ℕ) = ((1230 : ℤ) : ℚ) := by norm_num
  simp only [fmtPrec, hq, roundHalfEven_intCast]
  rw [if_neg (by norm_num : ¬(1 : ℕ) = 0), if_pos (by norm_num : (-123 : ℚ) < 0)]
  decide

/-- C3 counterexample: at raw value `-123` with width 3 and floor suffix
`One` the rescaled value is `-123` itself; the claim's digit count (integer
digits of the absolute value) is 3, leaving budget `3 - 3 = 0`, i.e. zero
fractional digits (`"-123"`).  But the code takes `log10` of the negative
value — NaN, collapsed by `f64::max` to a digit count of 1 — leaving
budget 2, and actually renders one fractional digit: `"-123.0"`. -/
theorem C3_negative_scaled_counterexample :
    digitsOf (scaledValue (-123 : ℚ) Suffix.One) = 1 ∧
    digitsOfAbs (scaledValue (-123 : ℚ) Suffix.One) = 3 ∧
    format_number (-123 : ℚ) 3 Suffix.One = "-123.0" := by
  have hd : digitsOf (-123 : ℚ) = 1 := by
    unfold digitsOf
    rw [if_neg (by norm_num : ¬(0 : ℚ) < -123)]
  have habs : digitsOfAbs (-123 : ℚ) = 3 := by
    unfold digitsOfAbs
    have h123 : |(-123 : ℚ)| = ((123 : ℕ) : ℚ) := by norm_num
    have hnat : Nat.log 10 123 = 2 :=
      Nat.log_eq_of_pow_le_of_lt_pow (by norm_num) (by norm_num)
    rw [h123, Int.log_natCast, hnat]
    decide
  refine ⟨by rw [scaledValue_neg123]; exact hd, by rw [scaledValue_neg123]; exact habs, ?_⟩
  simp only [format_number, scaledValue_neg123, expLevel_neg123, hd]
  norm_num
  rw [fmtPrec_neg123]
  decide

/-- C3 (amended): the digit count is computed from the signed rescaled
value: for a positive rescaled value it is the number of integer-part
digits (minimum one), but for a zero or negative rescaled value the NaN /
`-inf` logarithm collapses to 1 via `f64::max`.  The remaining budget
`rest = w - digits` is spent as the claim states: no fractional digits when
`rest ≤ 0`, no fractional digits plus a trailing literal dot when
`rest = 1`, and `rest - 1` fractional digits otherwise. -/
theorem C3_digits_from_signed_scaled (v : ℚ) (w : ℕ) (ms : Suffix) :
    digitsOf (scaledValue v ms) =
      (if 1 ≤ scaledValue v ms then ((Nat.digits 10 ⌊scaledValue v ms⌋₊).length : ℤ)
       else 1) ∧
    format_number v w ms =
      (if (w : ℤ) - digitsOf (scaledValue v ms) ≤ 0 then
         fmtPrec (scaledValue v ms) 0 ++ (suffixFor (expLevel v ms)).to_string
       else if (w : ℤ) - digitsOf (scaledValue v ms) = 1 then
         fmtPrec (scaledValue v ms) 0 ++ (suffixFor (expLevel v ms)).to_string ++ "."
       else
         fmtPrec (scaledValue v ms) ((w : ℤ) - digitsOf (scaledValue v ms) - 1).toNat ++
           (suffixFor (expLevel v ms)).to_string) := by
  constructor
  · unfold digitsOf
    by_cases h1 : (1 : ℚ) ≤ scaledValue v ms
    · rw [if_pos h1, if_pos (lt_of_lt_of_le one_pos h1)]
      rw [Int.log_of_one_le_right _ h1]
      have hne : ⌊scaledValue v ms⌋₊ ≠ 0 := by
        have h := Nat.le_floor (α := ℚ) (n := 1) (by exact_mod_cast h1)
        omega
      rw [Nat.digits_len 10 _ (by norm_num) hne]
      push_cast
      simp only [max_def]
      split_ifs <;> omega
    · rw [if_neg h1]
      by_cases h0 : 0 < scaledValue v ms
      · rw [if_pos h0]
        have hlog : Int.log 10 (scaledValue v ms) ≤ 0 := by
          rw [Int.log_of_right_le_one _ (le_of_not_le h1)]
          exact neg_nonpos.2 (Int.natCast_nonneg _)
        simp only [max_def]
        split_ifs <;> omega
      · rw [if_neg h0]
  · rfl

/-! ## Claim about `Value::format` unit conversion -/

/-- The numeric conversion asserted by C4 for integer payloads: a factor of
eight exactly on the `BytesPerSecond`/`BitsPerSecond` pair (truncating
division when going bits→bytes), identity on every other pair. -/
def bitByteConvInt (own disp : Unit) (n : ℤ) : ℤ :=
  if own = Unit.BytesPerSecond ∧ disp = Unit.BitsPerSecond then n * 8
  else if own = Unit.BitsPerSecond ∧ disp = Unit.BytesPerSecond then Int.tdiv n 8
  else n

/-- The numeric conversion asserted by C4 for float payloads. -/
def bitByteConvRat (own disp : Unit) (q : ℚ) : ℚ :=
  if own = Unit.BytesPerSecond ∧ disp = Unit.BitsPerSecond then q * 8
  else if own = Unit.BitsPerSecond ∧ disp = Unit.BytesPerSecond then q / 8
  else q

/-- C4: for every numeric payload, `Value::format` rescales by a factor of
eight exactly when the value's own unit and the effective display unit are
the `BytesPerSecond`/`BitsPerSecond` pair (multiply bytes→bits, truncating
division bits→bytes), and for every other pair renders the raw payload
under the requested unit label. -/
theorem C4_bit_byte_rescaling (u : Unit) (w : ℕ) (ic : Option String) (var : Variable) :
    (∀ n : ℤ,
      Value.format ⟨u, w, ic, InternalValue.Integer n⟩ var =
        ic.getD "" ++
        (padChars (var.pad_with.getD ' ')
          ((var.min_width.getD w) - (Int.repr (bitByteConvInt u (var.unit.getD u) n)).length) ++
         Int.repr (bitByteConvInt u (var.unit.getD u) n)) ++
        (var.unit.getD u).to_string) ∧
    (∀ q : ℚ,
      Value.format ⟨u, w, ic, InternalValue.Float q⟩ var =
        ic.getD "" ++
        format_number (bitByteConvRat u (var.unit.getD u) q) (var.min_width.getD w)
          (var.min_suffix.getD Suffix.Nano) ++
        (var.unit.getD u).to_string) := by
  constructor <;> intro x <;> cases ic <;>
    simp [Value.format, bitByteConvInt, bitByteConvRat]

/-! ## Claim about parsing a dump line with absent optional fields -/

/-- C7: a JSON line that carries all the required fields (and no unknown
keys) deserializes successfully with every optional field absent: the
absent `tc`, `smx`, `cr` percentages default to 0 and the absent `vram`,
`gtt`, `mclk`, `sclk` sub-records default to the all-zero `Ram`/`Clock`
values, rather than failing to parse. -/
theorem C7_absent_optional_fields_default (ts : ℚ) (bus : ℕ)
    (gpu ee vgt ta sx sh spi sc pa db cb : ℚ) :
    RadeontopDataDump.deserialize
      [("timestamp", Json.jnum ts), ("bus", Json.jnum (bus : ℚ)),
       ("gpu", Json.jnum gpu), ("ee", Json.jnum ee), ("vgt", Json.jnum vgt),
       ("ta", Json.jnum ta), ("sx", Json.jnum sx), ("sh", Json.jnum sh),
       ("spi", Json.jnum spi), ("sc", Json.jnum sc), ("pa", Json.jnum pa),
       ("db", Json.jnum db), ("cb", Json.jnum cb)] =
      some { timestamp := ts, bus := bus, gpu := gpu, ee := ee, vgt := vgt, ta := ta,
             tc := 0, sx := sx, sh := sh, spi := spi, smx := 0, sc := sc, pa := pa,
             db := db, cb := cb, cr := 0, vram := Ram.default, gtt := Ram.default,
             mclk := Clock.default, sclk := Clock.default } := by
  simp [RadeontopDataDump.deserialize, dataDumpKeys, reqRat, reqUsize, optField,
    Json.asRat, Json.asUsize, List.lookup, Rat.den_natCast, Rat.num_natCast,
    Int.toNat_natCast, Int.natCast_nonneg]

end I3StatusRust
